import Mathlib

/-!
# Verification of the NorthRelay SDK resilient-request core

A shallow embedding of the retry / error-classification core of the
NorthRelay Python SDK, together with proofs about it.

Embedded source files:
* `northrelay/utils/http.py` — `HttpClient` (`_update_rate_limit`,
  `_handle_error_response`, `request`, `delete`);
* `northrelay/utils/retry.py` — `is_retryable_error`,
  `create_retry_decorator`, `with_retry`;
* `northrelay/client.py` — `NorthRelay.__init__` credential validation;
* `northrelay/exceptions.py` — the error taxonomy.

Modelling conventions:
* Parsed JSON values are modelled by the inductive `Json`; the Python value
  `None` is identified with `Json.null` (which is what `json.loads` produces
  for it).  JSON numbers are modelled as integers, which is all the embedded
  code ever observes.  Objects are association lists with distinct keys,
  as produced by Python's JSON parser.
* Python truthiness of such values is `Json.truthy`.
* `int(s)` on strings is `pyInt`, modelled on its core grammar
  (optional sign followed by ASCII digits); `None` on failure stands for the
  raised `ValueError`.
* `str.lower` is modelled on ASCII (`lowerCode`), which is exact for every
  string the classification logic compares against (`"quota"`).
* An HTTP response is a record of status code, headers (an association
  list; lookup is case-insensitive as in `httpx.Headers`), raw body text,
  and the result of `response.json()` (`none` when parsing raises).
-/

set_option autoImplicit false

/-- A parsed JSON value.  `Json.null` also stands for the Python value
`None`, which is what the parser produces for JSON `null`. -/
inductive Json where
  | null
  | bool (b : Bool)
  | num (n : Int)
  | str (s : String)
  | arr (elems : List Json)
  | obj (fields : List (String × Json))

/-- Python truthiness of a parsed JSON value (`bool(v)`). -/
def Json.truthy : Json → Bool
  | .null => false
  | .bool b => b
  | .num n => n != 0
  | .str s => s != ""
  | .arr elems => !elems.isEmpty
  | .obj fields => !fields.isEmpty

/-- Whether a JSON value is a list (Python `list`). -/
def Json.isArr : Json → Bool
  | .arr _ => true
  | _ => false

/-- Python `dict.get(key, default)` on a parsed JSON object: the stored value
(possibly `null`) when the key is present, the default otherwise. -/
def dget (fields : List (String × Json)) (key : String) (default : Json) : Json :=
  match fields.find? (fun p => p.1 == key) with
  | some p => p.2
  | none => default

/-- The Unicode code points of a string. -/
def strCodes (s : String) : List Nat :=
  s.data.map Char.toNat

/-- ASCII lower-casing of a single code point (`str.lower`, restricted to
ASCII, which is exact for the comparisons the source performs). -/
def lowerCode (n : Nat) : Nat :=
  if 65 ≤ n ∧ n ≤ 90 then n + 32 else n

/-- Whether `needle` is a prefix of `hay` (over code points). -/
def codesStarts : List Nat → List Nat → Bool
  | [], _ => true
  | _ :: _, [] => false
  | a :: as, b :: bs => a == b && codesStarts as bs

/-- Whether `needle` occurs as a contiguous sublist of `hay`
(Python `needle in hay` on strings). -/
def codesContains (needle : List Nat) : List Nat → Bool
  | [] => needle.isEmpty
  | b :: bs => codesStarts needle (b :: bs) || codesContains needle bs

/-- Python `"quota" in message.lower()` (http.py line 95). -/
def quota_in_lower (message : String) : Bool :=
  codesContains (strCodes "quota") ((strCodes message).map lowerCode)

/-- Accumulate the value of a digit string; `none` on a non-digit. -/
def pyDigitsAux : List Char → Nat → Option Nat
  | [], acc => some acc
  | c :: cs, acc =>
    if c.isDigit then pyDigitsAux cs (acc * 10 + (c.toNat - 48)) else none

/-- Python `int(s)` on strings, on its core grammar: an optional sign
followed by at least one ASCII digit.  `none` models the raised
`ValueError`. -/
def pyInt (s : String) : Option Int :=
  match s.data with
  | [] => none
  | '+' :: cs => if cs.isEmpty then none else (pyDigitsAux cs 0).map Int.ofNat
  | '-' :: cs => if cs.isEmpty then none else (pyDigitsAux cs 0).map (fun n => -(n : Int))
  | cs => (pyDigitsAux cs 0).map Int.ofNat

/-- Python `s.startswith(pre)` (also one arm of a tuple call). -/
def pystartswith (s pre : String) : Bool :=
  codesStarts (strCodes pre) (strCodes s)

/-- `RateLimitInfo` (types.py): the rate-limit snapshot extracted from
response headers.  `reset` holds the unix timestamp passed to
`datetime.fromtimestamp`, which is injective on it. -/
structure RateLimitInfo where
  limit : Option Int
  remaining : Option Int
  reset : Option Int
deriving DecidableEq, Repr

/-- An HTTP response as the embedded code observes it: status code, headers,
raw body text, and the outcome of `response.json()` (`none` when the body
does not parse; when it is `some j`, `j` is the parse of `text`). -/
structure Response where
  status_code : Nat
  headers : List (String × String)
  text : String
  jsonBody : Option Json

/-- `httpx.Headers.get`: case-insensitive lookup of a header value. -/
def hget (headers : List (String × String)) (key : String) : Option String :=
  match headers.find? (fun p => (strCodes p.1).map lowerCode == (strCodes key).map lowerCode) with
  | some p => some p.2
  | none => none

/-- Python truthiness of `headers.get(k)`: present with a non-empty value. -/
def truthyS : Option String → Bool
  | some s => s != ""
  | none => false

/-- The classified error taxonomy (`exceptions.py`).  Each constructor keeps
the fields the corresponding exception class stores; messages are `Json`
because intermediate Python code can pass any body-derived value through. -/
inductive NRError where
  /-- `AuthenticationError` (401). -/
  | authentication (message : Json)
  /-- `ScopeError` (403). -/
  | scope (message : Json)
  /-- `ValidationError` (400); `errors` is the stored `self.errors`
  (`errors or []`). -/
  | validation (message : Json) (errors : Json)
  /-- `QuotaExceededError` (429 with a quota message). -/
  | quotaExceeded (message : Json)
  /-- `RateLimitError` (429); `retry_after` in seconds when parsed. -/
  | rateLimit (message : Json) (retry_after : Option Int)
  /-- `NotFoundError` (404). -/
  | notFound (message : Json)
  /-- `ServerError` (5xx); keeps the original status code. -/
  | server (message : Json) (status_code : Nat)
  /-- `NetworkError` (connection-level failure); message is
  `"Network error: " ++ cause`. -/
  | network (message : String)

/-- An uncaught Python-level exception escaping `_handle_error_response`. -/
inductive PyExc where
  /-- `error_data` referenced before assignment (http.py line 83 when
  `response.json()` raised). -/
  | unboundLocal
  /-- `.lower()` on a non-string error message (http.py line 95). -/
  | attributeError
  /-- `int(...)` on a non-numeric string. -/
  | valueError
deriving DecidableEq, Repr

/-- Outcome of `HttpClient._handle_error_response`. -/
inductive HandleResult where
  /-- A classified `NorthRelayError` was raised. -/
  | raised (e : NRError)
  /-- An uncaught Python-level exception escaped instead. -/
  | crash (exc : PyExc)
  /-- `response.raise_for_status()` for an unhandled status code. -/
  | httpStatus

/-- The error message extraction of http.py lines 67–71:
`error_data.get("message", error_data.get("error", response.text))` when the
body parsed to a dict, and the `except` fallback
`response.text or f"HTTP ... error"` when `response.json()` raised or
`.get` on a non-dict raised. -/
def extract_error_message (r : Response) : Json :=
  match r.jsonBody with
  | some (Json.obj fields) =>
    dget fields "message" (dget fields "error" (Json.str r.text))
  | _ =>
    if r.text != "" then Json.str r.text
    else Json.str ("HTTP " ++ toString r.status_code ++ " error")

/-- http.py line 83: `error_data.get("errors") if isinstance(error_data, dict)
else None`, for a bound `error_data`. -/
def raw_errors (j : Json) : Json :=
  match j with
  | Json.obj fields => dget fields "errors" Json.null
  | _ => Json.null

/-- Python `errors or []` (exceptions.py line 35): the value itself when
truthy, the empty list otherwise. -/
def py_or_empty_list (v : Json) : Json :=
  if v.truthy then v else Json.arr []

/-- `HttpClient._handle_error_response` (http.py lines 63–108), branch by
branch in source order.  The 400 branch crashes with `UnboundLocalError` when the body did
not parse, because `error_data` was never bound; the 429 branch crashes with
`AttributeError` when the extracted message is not a string, and with
`ValueError` when a truthy `retry-after` header is not numeric. -/
def handle_error_response (r : Response) : HandleResult :=
  let error_message := extract_error_message r
  if r.status_code = 401 then .raised (.authentication error_message)
  else if r.status_code = 403 then .raised (.scope error_message)
  else if r.status_code = 400 then
    match r.jsonBody with
    | none => .crash .unboundLocal
    | some j => .raised (.validation error_message (py_or_empty_list (raw_errors j)))
  else if r.status_code = 404 then .raised (.notFound error_message)
  else if r.status_code = 429 then
    match error_message with
    | Json.str s =>
      if quota_in_lower s then .raised (.quotaExceeded (Json.str s))
      else
        match hget r.headers "retry-after" with
        | some ra =>
          if ra != "" then
            match pyInt ra with
            | some n => .raised (.rateLimit (Json.str s) (some n))
            | none => .crash .valueError
          else .raised (.rateLimit (Json.str s) none)
        | none => .raised (.rateLimit (Json.str s) none)
    | _ => .crash .attributeError
  else if 500 ≤ r.status_code ∧ r.status_code < 600 then
    .raised (.server error_message r.status_code)
  else .httpStatus

/-- The condition of http.py line 56: `if limit or remaining or reset`,
i.e. at least one of the three rate-limit headers is present with a
non-empty value. -/
def rate_headers_truthy (r : Response) : Bool :=
  truthyS (hget r.headers "x-ratelimit-limit")
    || truthyS (hget r.headers "x-ratelimit-remaining")
    || truthyS (hget r.headers "x-ratelimit-reset")

/-- One snapshot field: `int(v) if v else None` (http.py lines 58–60).
`none` in the outer `Option` models the `ValueError` raised by `int` on a
truthy non-numeric value. -/
def parseField (v : Option String) : Option (Option Int) :=
  match v with
  | none => some none
  | some s => if s != "" then (pyInt s).map some else some none

/-- The snapshot `_update_rate_limit` stores for a response whose header
condition is truthy, provided no field crashes: each field is the parsed
value of a truthy header and `none` otherwise. -/
def snapshot_of_headers (r : Response) : RateLimitInfo :=
  { limit := (parseField (hget r.headers "x-ratelimit-limit")).getD none
    remaining := (parseField (hget r.headers "x-ratelimit-remaining")).getD none
    reset := (parseField (hget r.headers "x-ratelimit-reset")).getD none }

/-- `HttpClient._update_rate_limit` (http.py lines 48–61) as a transition on
`_rate_limit_info`.  The outer `none` models an uncaught `ValueError` from
`int(...)`, in which case the assignment never happens. -/
def update_rate_limit (r : Response) (cur : Option RateLimitInfo) :
    Option (Option RateLimitInfo) :=
  if rate_headers_truthy r then
    match parseField (hget r.headers "x-ratelimit-limit") with
    | none => none
    | some l =>
      match parseField (hget r.headers "x-ratelimit-remaining") with
      | none => none
      | some m =>
        match parseField (hget r.headers "x-ratelimit-reset") with
        | none => none
        | some t => some (some { limit := l, remaining := m, reset := t })
  else some cur

/-- Fold `_update_rate_limit` over a sequence of received responses,
propagating a crash. -/
def process_responses : List Response → Option RateLimitInfo → Option (Option RateLimitInfo)
  | [], cur => some cur
  | r :: rs, cur =>
    match update_rate_limit r cur with
    | none => none
    | some cur' => process_responses rs cur'

/-- The last element of a list satisfying a predicate. -/
def lastP {α : Type} (p : α → Bool) : List α → Option α
  | [] => none
  | a :: as => (lastP p as).elim (if p a then some a else none) some

/-- Whether a response carries at least one of the three rate-limit headers
(presence, regardless of value). -/
def has_rate_header (r : Response) : Bool :=
  (hget r.headers "x-ratelimit-limit").isSome
    || (hget r.headers "x-ratelimit-remaining").isSome
    || (hget r.headers "x-ratelimit-reset").isSome

/-- Following the claim's words (not the source): the snapshot wholly rebuilt
from the most recent response that had at least one of the three rate-limit
headers, and the initial snapshot when no response had any. -/
def claimed_snapshot (rs : List Response) (init : Option RateLimitInfo) :
    Option RateLimitInfo :=
  (lastP has_rate_header rs).elim init (fun r => some (snapshot_of_headers r))

/-- What the network produced for one request: a response, or a
connection-level `httpx.RequestError` carrying a message. -/
inductive NetOutcome where
  | response (r : Response)
  | requestError (cause : String)

/-- Outcome of `HttpClient.request`. -/
inductive RequestResult where
  /-- The response was successful (2xx) and is returned. -/
  | success (r : Response)
  /-- A classified `NorthRelayError` was raised. -/
  | raisedNR (e : NRError)
  /-- An uncaught Python-level exception escaped. -/
  | crash (exc : PyExc)
  /-- `response.raise_for_status()` raised for an unhandled status. -/
  | httpStatus

/-- `HttpClient.request` (http.py lines 110–127) as a function of the current
snapshot and the network outcome, returning the result together with the new
snapshot.  A connection-level failure is wrapped in `NetworkError`; a
received response first updates the snapshot, then is returned if successful
(2xx) and classified otherwise. -/
def http_request (st : Option RateLimitInfo) (o : NetOutcome) :
    RequestResult × Option RateLimitInfo :=
  match o with
  | .requestError cause => (.raisedNR (.network ("Network error: " ++ cause)), st)
  | .response r =>
    match update_rate_limit r st with
    | none => (.crash .valueError, st)
    | some st' =>
      if 200 ≤ r.status_code ∧ r.status_code < 300 then (.success r, st')
      else
        match handle_error_response r with
        | .raised e => (.raisedNR e, st')
        | .crash exc => (.crash exc, st')
        | .httpStatus => (.httpStatus, st')

/-- `HttpClient.delete` body handling (http.py line 152):
`response.json() if response.content else curly-empty-dict`.  The result is
`none` when `response.json()` raises on a non-empty body. -/
def delete_body (r : Response) : Option Json :=
  if r.text != "" then r.jsonBody else some (Json.obj [])

/-- `is_retryable_error` (retry.py lines 17–26).  The `hasattr` check always
succeeds because `RateLimitError.__init__` sets `retry_after`
unconditionally. -/
def is_retryable_error : NRError → Bool
  | .network _ => true
  | .server _ _ => true
  | .rateLimit _ retry_after => retry_after.isSome
  | _ => false

/-- The retry predicate `create_retry_decorator` actually installs
(retry.py line 54):
`retry_if_exception_type((NetworkError, ServerError, RateLimitError))`,
i.e. an `isinstance` test against those three classes — no other
`NorthRelayError` subclass inherits from any of them. -/
def decorator_retries : NRError → Bool
  | .network _ => true
  | .server _ _ => true
  | .rateLimit _ _ => true
  | _ => false

/-- Tenacity `wait_exponential(multiplier, max, exp_base)` with its default
`min = 0`, evaluated after the failed attempt numbered `attempt_number`
(1-based): `max(max(0, min_), min(multiplier * exp_base ** (attempt_number - 1),
max_))`. -/
def wait_exponential (multiplier mx exp_base : ℚ) (attempt_number : Nat) : ℚ :=
  max (max 0 0) (min (multiplier * exp_base ^ (attempt_number - 1)) mx)

/-- The wait function `create_retry_decorator` builds (retry.py lines 49–53):
`wait_exponential(multiplier=initial_delay, max=max_delay,
exp_base=exponential_base)`. -/
def create_retry_wait (initial_delay max_delay exponential_base : ℚ)
    (attempt_number : Nat) : ℚ :=
  wait_exponential initial_delay max_delay exponential_base attempt_number

/-- The delay slept before attempt `k` of a `with_retry` run that reaches it:
nothing before the first attempt, and the decorator's wait evaluated after
failed attempt `k - 1` otherwise. -/
def delay_before_attempt (initial_delay max_delay exponential_base : ℚ)
    (k : Nat) : ℚ :=
  if k ≤ 1 then 0
  else create_retry_wait initial_delay max_delay exponential_base (k - 1)

/-- Result of one attempt of the wrapped operation: a value or a classified
error raised. -/
inductive Outcome (α : Type) where
  | ok (v : α)
  | err (e : NRError)

/-- The tenacity retry loop with `stop_after_attempt`, a retry predicate `p`,
a wait function `w` (indexed by the number of the attempt that just failed)
and `reraise=True`: attempt `k` runs; on success the value is returned; on a
failure that `p` rejects, or once no attempts remain (`rem = 0`), the last
error is re-raised unchanged.  Returns the outcome, the number of the last
attempt executed, and the list of delays slept. -/
def retry_loop {α : Type} (p : NRError → Bool) (w : Nat → ℚ)
    (op : Nat → Outcome α) (k : Nat) : Nat → Outcome α × Nat × List ℚ
  | 0 =>
    match op k with
    | .ok v => (.ok v, k, [])
    | .err e => (.err e, k, [])
  | rem + 1 =>
    match op k with
    | .ok v => (.ok v, k, [])
    | .err e =>
      if p e then
        let rest := retry_loop p w op (k + 1) rem
        (rest.1, rest.2.1, w k :: rest.2.2)
      else (.err e, k, [])

/-- `with_retry` (retry.py lines 59–94): the decorator built by
`create_retry_decorator(max_attempts, initial_delay, max_delay,
exponential_base)` applied to the operation.  Attempts are numbered from 1;
`stop_after_attempt(max_attempts)` leaves `max_attempts - 1` retries after
the first attempt. -/
def with_retry {α : Type} (op : Nat → Outcome α) (max_attempts : Nat)
    (initial_delay max_delay exponential_base : ℚ) : Outcome α × Nat × List ℚ :=
  retry_loop decorator_retries
    (create_retry_wait initial_delay max_delay exponential_base)
    op 1 (max_attempts - 1)

/-- `RetryConfig` (retry.py lines 97–118). -/
structure RetryConfigV where
  max_attempts : Nat
  initial_delay : ℚ
  max_delay : ℚ
  exponential_base : ℚ
deriving DecidableEq, Repr

/-- `NorthRelay.__init__` (client.py lines 57–92) up to its first side
effect: an empty key and a key without a recognized prefix are rejected with
the source's error messages before the `HttpClient` (and hence any network
machinery) is created; otherwise construction proceeds and installs the
retry configuration with `exponential_base = 2.0`. -/
def NorthRelay_init (api_key : String) (max_retries : Nat)
    (retry_delay max_retry_delay : ℚ) : Except String RetryConfigV :=
  if api_key = "" then
    .error ("API key is required. Get your API key at " ++
      "https://app.northrelay.ca/settings/api-keys")
  else if !(pystartswith api_key "nr_live_" || pystartswith api_key "nr_test_") then
    .error "Invalid API key format. API keys must start with \"nr_live_\" or \"nr_test_\""
  else
    .ok { max_attempts := max_retries, initial_delay := retry_delay,
          max_delay := max_retry_delay, exponential_base := 2 }

/-- Whether client construction succeeded. -/
def initOk (x : Except String RetryConfigV) : Bool :=
  match x with
  | .ok _ => true
  | .error _ => false

/-- The delays a retry loop starting at attempt `k` with `rem` retries left
sleeps when every attempt fails with a retried error. -/
def delaysFrom (w : Nat → ℚ) : Nat → Nat → List ℚ
  | _, 0 => []
  | k, rem + 1 => w k :: delaysFrom w (k + 1) rem

/-- The amended characterization of the snapshot: rebuilt from the most
recent response on which the update condition of http.py line 56 held — at
least one rate-limit header present with a non-empty value — and untouched
otherwise. -/
def amended_snapshot (rs : List Response) (init : Option RateLimitInfo) :
    Option RateLimitInfo :=
  (lastP rate_headers_truthy rs).elim init (fun r => some (snapshot_of_headers r))

/-! ### Concrete sample inputs used by closed theorems and witnesses -/

/-- A `RateLimitError` with no `retry_after`, as classification produces for
a 429 response without a `retry-after` header. -/
def eRL : NRError := .rateLimit (Json.str "Rate limit exceeded") none

/-- An operation failing with `eRL` on every attempt. -/
def opRL : Nat → Outcome Unit := fun _ => .err eRL

/-- A `ServerError` as classification produces for a 500. -/
def eSrv : NRError := .server (Json.str "boom") 500

/-- An operation failing with `eSrv` on every attempt. -/
def opSrv : Nat → Outcome Unit := fun _ => .err eSrv

/-- A 401 response with body text `nope` that does not parse as JSON. -/
def r401c : Response := ⟨401, [], "nope", none⟩

/-- A 403 response with a JSON body message. -/
def r403c : Response := ⟨403, [], "x", some (Json.obj [("message", Json.str "no perm")])⟩

/-- A 404 response with a JSON body carrying only an `error` field. -/
def r404c : Response := ⟨404, [], "x", some (Json.obj [("error", Json.str "gone")])⟩

/-- A 400 response with a JSON body and a per-field error list. -/
def r400c : Response :=
  ⟨400, [], "x", some (Json.obj
    [("message", Json.str "bad"),
     ("errors", Json.arr [Json.obj [("field", Json.str "to")]])])⟩

/-- A 400 response whose body is not valid JSON. -/
def r400bad : Response := ⟨400, [], "Bad Request", none⟩

/-- A 400 response whose body has a truthy non-list `errors` value. -/
def r400errStr : Response :=
  ⟨400, [], "x", some (Json.obj [("message", Json.str "bad"), ("errors", Json.str "oops")])⟩

/-- A 400 response whose body lacks an `errors` field. -/
def r400noerr : Response := ⟨400, [], "x", some (Json.obj [("message", Json.str "bad")])⟩

/-- A 429 response whose body message mentions the quota. -/
def r429q : Response :=
  ⟨429, [("Retry-After", "7")], "x",
    some (Json.obj [("message", Json.str "Monthly QUOTA exceeded")])⟩

/-- A 429 rate-limit response with a numeric `retry-after` header. -/
def r429r : Response :=
  ⟨429, [("Retry-After", "7")], "x", some (Json.obj [("message", Json.str "slow down")])⟩

/-- A 429 response whose JSON `message` field is a number, not a string. -/
def r429num : Response := ⟨429, [], "x", some (Json.obj [("message", Json.num 42)])⟩

/-- A 503 response with a plain-text body. -/
def r503c : Response := ⟨503, [], "oops", none⟩

/-- A response carrying `x-ratelimit-limit: 1`. -/
def rLim1 : Response := ⟨200, [("x-ratelimit-limit", "1")], "", none⟩

/-- A response carrying the `x-ratelimit-limit` header with an empty value:
the header is present, but falsy to http.py line 56. -/
def rLimEmpty : Response := ⟨200, [("x-ratelimit-limit", "")], "", none⟩

/-- A successful DELETE response with a non-empty JSON body. -/
def rDel : Response := ⟨200, [], "[1]", some (Json.arr [Json.num 1])⟩

/-! ### Helper lemmas -/

theorem retry_loop_no_retry {α : Type} (p : NRError → Bool) (w : Nat → ℚ)
    (op : Nat → Outcome α) (e : NRError) (k rem : Nat)
    (hp : p e = false) (hop : op k = .err e) :
    retry_loop p w op k rem = (.err e, k, []) := by
  cases rem <;> simp [retry_loop, hop, hp]

theorem retry_loop_exhaust {α : Type} (p : NRError → Bool) (w : Nat → ℚ)
    (op : Nat → Outcome α) (e : NRError) (hp : p e = true)
    (hop : ∀ j, op j = .err e) :
    ∀ rem k, retry_loop p w op k rem = (.err e, k + rem, delaysFrom w k rem) := by
  intro rem
  induction rem with
  | zero => intro k; simp [retry_loop, hop k, delaysFrom]
  | succ n ih =>
    intro k
    have harith : k + 1 + n = k + (n + 1) := by omega
    simp [retry_loop, hop k, hp, delaysFrom, ih (k + 1), harith]

theorem update_rate_limit_not_truthy (r : Response) (cur : Option RateLimitInfo)
    (h : rate_headers_truthy r = false) :
    update_rate_limit r cur = some cur := by
  simp [update_rate_limit, h]

theorem update_rate_limit_truthy (r : Response) (cur cur' : Option RateLimitInfo)
    (ht : rate_headers_truthy r = true)
    (h : update_rate_limit r cur = some cur') :
    cur' = some (snapshot_of_headers r) := by
  unfold update_rate_limit at h
  simp only [ht, if_true] at h
  rcases hl : parseField (hget r.headers "x-ratelimit-limit") with _ | l <;> rw [hl] at h
  · simp at h
  rcases hm : parseField (hget r.headers "x-ratelimit-remaining") with _ | m <;> rw [hm] at h
  · simp at h
  rcases hr : parseField (hget r.headers "x-ratelimit-reset") with _ | t <;> rw [hr] at h
  · simp at h
  simp only [Option.some.injEq] at h
  rw [← h]
  simp [snapshot_of_headers, hl, hm, hr]

/-! ### Claim theorems -/

/-- **C1** (code bug): the spec — and the repository's own unused
`is_retryable_error`, whose comment says rate limits are retried only when
`retry_after` is provided — requires a `RateLimitError` with `retry_after`
absent to be propagated after a single attempt.  The decorator actually
installed by `create_retry_decorator` retries on the exception type alone:
on an operation that always raises such an error with `max_attempts = 3` it
performs all 3 attempts (sleeping 1.0 and 2.0 seconds in between) before
re-raising, even though `is_retryable_error` classifies the error as
non-retryable. -/
theorem rate_limit_without_retry_after_is_retried :
    with_retry opRL 3 1 10 2 = (.err eRL, 3, [1, 2])
      ∧ decorator_retries eRL = true
      ∧ is_retryable_error eRL = false := by
  refine ⟨?_, rfl, rfl⟩
  norm_num [with_retry, retry_loop, opRL, eRL, decorator_retries,
    create_retry_wait, wait_exponential]

/-- **C2** (confirmed): for non-negative policy parameters the delay before
attempt `k ≥ 2` is `min(initial_delay * exponential_base ^ (k - 2),
max_delay)`, there is no delay before the first attempt, the wait the loop
sleeps after failed attempt `k` is exactly the delay before attempt `k + 1`,
and the run with `initial_delay = 1, max_delay = 10, exponential_base = 2,
max_attempts = 5` sleeps `1, 2, 4, 8` before attempts 2..5. -/
theorem with_retry_backoff_schedule :
    (∀ (i M b : ℚ) (k : Nat), 0 ≤ i → 0 ≤ b → 0 ≤ M → 2 ≤ k →
        delay_before_attempt i M b k = min (i * b ^ (k - 2)) M)
      ∧ (∀ i M b : ℚ, delay_before_attempt i M b 1 = 0)
      ∧ (∀ (i M b : ℚ) (k : Nat), 1 ≤ k →
        create_retry_wait i M b k = delay_before_attempt i M b (k + 1))
      ∧ with_retry opSrv 5 1 10 2 = (.err eSrv, 5, [1, 2, 4, 8]) := by
  refine ⟨?_, ?_, ?_, ?_⟩
  · intro i M b k hi hb hM hk
    have h1 : ¬ k ≤ 1 := by omega
    have h2 : k - 1 - 1 = k - 2 := by omega
    simp only [delay_before_attempt, if_neg h1, create_retry_wait,
      wait_exponential, h2, max_self]
    exact max_eq_right (le_min (mul_nonneg hi (pow_nonneg hb _)) hM)
  · intro i M b; simp [delay_before_attempt]
  · intro i M b k hk
    have h1 : ¬ k + 1 ≤ 1 := by omega
    have h0 : k ≠ 0 := by omega
    simp [delay_before_attempt, if_neg h1, h0]
  · norm_num [with_retry, retry_loop, opSrv, eSrv, decorator_retries,
      create_retry_wait, wait_exponential]

/-- Witness for the backoff schedule at concrete inputs. -/
theorem with_retry_backoff_schedule_witness :
    delay_before_attempt 1 10 2 4 = min ((1 : ℚ) * 2 ^ (4 - 2)) 10 :=
  with_retry_backoff_schedule.1 1 10 2 4 (by norm_num) (by norm_num)
    (by norm_num) (by norm_num)

/-- **C3** counterexample: request A carries `x-ratelimit-limit: 1`, request
B carries the header with an empty value.  B is then the most recent
response that *has* a rate-limit header, but the snapshot is still the one
rebuilt from A, because http.py line 56 tests truthiness of the values, not
presence of the headers. -/
theorem rate_limit_snapshot_presence_counterexample :
    process_responses [rLim1, rLimEmpty] none = some (some ⟨some 1, none, none⟩)
      ∧ claimed_snapshot [rLim1, rLimEmpty] none = some ⟨none, none, none⟩
      ∧ (some (⟨some 1, none, none⟩ : RateLimitInfo) : Option RateLimitInfo)
          ≠ some ⟨none, none, none⟩ :=
  ⟨by decide, by decide, by decide⟩

/-- **C3** (amended): after processing any crash-free sequence of responses
the snapshot equals the one wholly rebuilt from the most recent response
carrying at least one rate-limit header with a non-empty value, and is left
unchanged by responses carrying none (in particular by responses with none
of the three headers at all). -/
theorem rate_limit_snapshot_from_last_truthy_response :
    ∀ (rs : List Response) (init s : Option RateLimitInfo),
      process_responses rs init = some s → s = amended_snapshot rs init := by
  intro rs
  induction rs with
  | nil =>
    intro init s h
    simp only [process_responses, Option.some.injEq] at h
    simp [amended_snapshot, lastP, ← h]
  | cons r rs ih =>
    intro init s h
    unfold process_responses at h
    rcases hu : update_rate_limit r init with _ | cur' <;> rw [hu] at h
    · simp at h
    have hs := ih cur' s h
    unfold amended_snapshot at hs ⊢
    simp only [lastP]
    rcases hl : lastP rate_headers_truthy rs with _ | b <;>
      rw [hl] at hs <;>
      simp only [Option.elim_none, Option.elim_some] at hs ⊢
    · by_cases htr : rate_headers_truthy r = true
      · simp only [htr, if_true, Option.elim_some]
        rw [hs]
        exact update_rate_limit_truthy r init cur' htr hu
      · have htf : rate_headers_truthy r = false := by
          cases hx : rate_headers_truthy r
          · rfl
          · exact absurd hx htr
        simp only [htf, Bool.false_eq_true, if_false, Option.elim_none]
        have hinit : init = cur' := by
          rw [update_rate_limit_not_truthy r init htf] at hu
          exact Option.some.inj hu
        rw [hs, ← hinit]
    · exact hs

/-- Witness: the amended snapshot characterization applied to the concrete
two-response trace. -/
theorem rate_limit_snapshot_from_last_truthy_response_witness :
    (some (⟨some 1, none, none⟩ : RateLimitInfo) : Option RateLimitInfo)
      = amended_snapshot [rLim1, rLimEmpty] none :=
  rate_limit_snapshot_from_last_truthy_response [rLim1, rLimEmpty] none
    (some ⟨some 1, none, none⟩) (by decide)

theorem handle_429_str (r : Response) (s : String)
    (h429 : r.status_code = 429) (hmsg : extract_error_message r = Json.str s) :
    handle_error_response r =
      (if quota_in_lower s then HandleResult.raised (.quotaExceeded (Json.str s))
       else
         match hget r.headers "retry-after" with
         | some ra =>
           if ra != "" then
             match pyInt ra with
             | some n => .raised (.rateLimit (Json.str s) (some n))
             | none => .crash .valueError
           else .raised (.rateLimit (Json.str s) none)
         | none => .raised (.rateLimit (Json.str s) none)) := by
  simp only [handle_error_response, hmsg, h429]
  norm_num

/-- **C4** counterexample: a 429 response whose JSON `message` field is the
number 42.  The extracted error message is not a string, so
`error_message.lower()` raises an uncaught `AttributeError` instead of
classification yielding a `RateLimitError`. -/
theorem status_429_nonstring_message_counterexample :
    extract_error_message r429num = Json.num 42
      ∧ handle_error_response r429num = .crash .attributeError
      ∧ HandleResult.crash .attributeError
          ≠ .raised (.rateLimit (Json.num 42) none) :=
  ⟨rfl, rfl, fun h => by cases h⟩

/-- **C4** (amended): for a 429 response whose extracted error message is a
string, classification yields `QuotaExceeded` exactly when the message
contains `"quota"` case-insensitively; otherwise it yields `RateLimit`
whose `retry_after` is parsed from the `retry-after` header when that header
is present with a non-empty integer value, and is `None` when the header is
absent or empty.  `QuotaExceeded` is retried neither by the installed
decorator predicate nor by `is_retryable_error`; a run over an operation
that always raises it makes exactly one attempt and re-raises it. -/
theorem status_429_classification :
    (∀ (r : Response) (s : String),
        r.status_code = 429 → extract_error_message r = Json.str s →
        (handle_error_response r = .raised (.quotaExceeded (Json.str s))
          ↔ quota_in_lower s = true))
      ∧ (∀ (r : Response) (s : String),
        r.status_code = 429 → extract_error_message r = Json.str s →
        quota_in_lower s = false →
        (hget r.headers "retry-after" = none →
            handle_error_response r = .raised (.rateLimit (Json.str s) none))
          ∧ (∀ ra : String, hget r.headers "retry-after" = some ra → ra ≠ "" →
              ∀ n : Int, pyInt ra = some n →
              handle_error_response r = .raised (.rateLimit (Json.str s) (some n)))
          ∧ (hget r.headers "retry-after" = some "" →
              handle_error_response r = .raised (.rateLimit (Json.str s) none)))
      ∧ (∀ m : Json, decorator_retries (.quotaExceeded m) = false
          ∧ is_retryable_error (.quotaExceeded m) = false)
      ∧ (∀ (m : Json) (maxA : Nat) (i M b : ℚ) (op : Nat → Outcome Unit),
        (∀ j, op j = .err (.quotaExceeded m)) →
        with_retry op maxA i M b = (.err (.quotaExceeded m), 1, [])) := by
  refine ⟨?_, ?_, ?_, ?_⟩
  · intro r s h429 hmsg
    rw [handle_429_str r s h429 hmsg]
    by_cases hq : quota_in_lower s = true
    · simp [hq]
    · have hqf : quota_in_lower s = false := by
        cases hx : quota_in_lower s
        · rfl
        · exact absurd hx hq
      simp only [hqf, Bool.false_eq_true, if_false]
      constructor
      · intro h
        rcases hra : hget r.headers "retry-after" with _ | ra <;> rw [hra] at h
        · exact NRError.noConfusion (HandleResult.raised.inj h)
        · by_cases he : (ra != "") = true
          · simp only [he, if_true] at h
            rcases hn : pyInt ra with _ | n <;> rw [hn] at h
            · cases h
            · exact NRError.noConfusion (HandleResult.raised.inj h)
          · simp only [he, Bool.false_eq_true, if_false] at h
            exact NRError.noConfusion (HandleResult.raised.inj h)
      · exact fun h => h.elim
  · intro r s h429 hmsg hqf
    rw [handle_429_str r s h429 hmsg]
    simp only [hqf, Bool.false_eq_true, if_false]
    refine ⟨?_, ?_, ?_⟩
    · intro hra; rw [hra]
    · intro ra hra hne n hn
      rw [hra]
      have hne' : (ra != "") = true := by
        simp [bne, hne]
      simp only [hne', if_true, hn]
    · intro hra
      rw [hra]
      norm_num
  · intro m; exact ⟨rfl, rfl⟩
  · intro m maxA i M b op hop
    unfold with_retry
    exact retry_loop_no_retry decorator_retries _ op (.quotaExceeded m) 1 (maxA - 1)
      rfl (hop 1)

/-- Witness: the 429 classification applied to a concrete quota response and
a concrete rate-limited response with `Retry-After: 7`. -/
theorem status_429_classification_witness :
    handle_error_response r429q
        = .raised (.quotaExceeded (Json.str "Monthly QUOTA exceeded"))
      ∧ handle_error_response r429r
        = .raised (.rateLimit (Json.str "slow down") (some 7)) := by
  constructor
  · exact (status_429_classification.1 r429q "Monthly QUOTA exceeded" rfl rfl).mpr
      (by decide)
  · exact (status_429_classification.2.1 r429r "slow down" rfl rfl (by decide)).2.1
      "7" rfl (by decide) 7 (by decide)

/-- **C5** (confirmed): every response with status in 500..599 is classified
as a `ServerError` preserving the original status code, and a run over an
operation that always raises a `ServerError` performs exactly `max_attempts`
attempts and then re-raises the same error. -/
theorem server_errors_classified_and_retried :
    (∀ r : Response, 500 ≤ r.status_code → r.status_code < 600 →
        handle_error_response r
          = .raised (.server (extract_error_message r) r.status_code))
      ∧ (∀ (m : Json) (sc maxA : Nat) (i M b : ℚ) (op : Nat → Outcome Unit),
        1 ≤ maxA → (∀ j, op j = .err (.server m sc)) →
        (with_retry op maxA i M b).1 = .err (.server m sc)
          ∧ (with_retry op maxA i M b).2.1 = maxA) := by
  constructor
  · intro r h5 h6
    have h1 : r.status_code ≠ 401 := by omega
    have h2 : r.status_code ≠ 403 := by omega
    have h3 : r.status_code ≠ 400 := by omega
    have h4 : r.status_code ≠ 404 := by omega
    have h7 : r.status_code ≠ 429 := by omega
    simp only [handle_error_response, if_neg h1, if_neg h2, if_neg h3,
      if_neg h4, if_neg h7, if_pos (And.intro h5 h6)]
  · intro m sc maxA i M b op hmax hop
    unfold with_retry
    rw [retry_loop_exhaust decorator_retries _ op (.server m sc) rfl hop (maxA - 1) 1]
    constructor
    · rfl
    · show 1 + (maxA - 1) = maxA
      omega

/-- Witness: the 5xx classification at a concrete 503 response, and the
exhaustion of a 3-attempt run over an operation that always fails with a
500. -/
theorem server_errors_classified_and_retried_witness :
    handle_error_response r503c
        = .raised (.server (extract_error_message r503c) 503)
      ∧ (with_retry opSrv 3 1 10 2).1 = .err eSrv
      ∧ (with_retry opSrv 3 1 10 2).2.1 = 3 := by
  refine ⟨?_, ?_, ?_⟩
  · exact server_errors_classified_and_retried.1 r503c (by decide) (by decide)
  · exact (server_errors_classified_and_retried.2 (Json.str "boom") 500 3 1 10 2 opSrv
      (by decide) (fun j => rfl)).1
  · exact (server_errors_classified_and_retried.2 (Json.str "boom") 500 3 1 10 2 opSrv
      (by decide) (fun j => rfl)).2

/-- **C6** (code bug): 401, 403 and 404 responses are classified as
`AuthenticationError`, `ScopeError` and `NotFoundError`, a 400 response with
a parsed JSON body as `ValidationError` with the per-field error list, and
for each of these kinds the decorator predicate rejects a retry, so a run
makes exactly one attempt and re-raises the same error unchanged.  However a
400 response whose body is not valid JSON crashes with `UnboundLocalError`
(http.py line 83 references `error_data`, which was never bound because
`response.json()` raised inside the `try`) instead of yielding the
`ValidationError` the claim — and the `except` fallback of lines 70–71 —
intends. -/
theorem nonretryable_kinds_single_attempt :
    handle_error_response r400bad = .crash .unboundLocal
      ∧ handle_error_response r401c = .raised (.authentication (Json.str "nope"))
      ∧ handle_error_response r403c = .raised (.scope (Json.str "no perm"))
      ∧ handle_error_response r404c = .raised (.notFound (Json.str "gone"))
      ∧ handle_error_response r400c
          = .raised (.validation (Json.str "bad")
              (Json.arr [Json.obj [("field", Json.str "to")]]))
      ∧ with_retry
          (fun _ => (Outcome.err (NRError.authentication (Json.str "nope")) : Outcome Unit))
          3 1 10 2 = (.err (.authentication (Json.str "nope")), 1, [])
      ∧ with_retry
          (fun _ => (Outcome.err (NRError.scope (Json.str "no perm")) : Outcome Unit))
          3 1 10 2 = (.err (.scope (Json.str "no perm")), 1, [])
      ∧ with_retry
          (fun _ => (Outcome.err (NRError.validation (Json.str "bad") (Json.arr []))
            : Outcome Unit))
          3 1 10 2 = (.err (.validation (Json.str "bad") (Json.arr [])), 1, [])
      ∧ with_retry
          (fun _ => (Outcome.err (NRError.notFound (Json.str "gone")) : Outcome Unit))
          3 1 10 2 = (.err (.notFound (Json.str "gone")), 1, []) :=
  ⟨rfl, rfl, rfl, rfl, rfl, rfl, rfl, rfl, rfl⟩

/-- **C7** (confirmed): client construction accepts an API key exactly when
it starts with `nr_live_` or `nr_test_`; in particular `"invalid_key"` and
`""` are rejected with the source's descriptive messages before the
`HttpClient` is created, while `"nr_live_x"` and `"nr_test_x"` are
accepted. -/
theorem api_key_prefix_validation :
    (∀ (k : String) (n : Nat) (d d' : ℚ),
        initOk (NorthRelay_init k n d d')
          = (pystartswith k "nr_live_" || pystartswith k "nr_test_"))
      ∧ NorthRelay_init "invalid_key" 3 1 10
          = .error "Invalid API key format. API keys must start with \"nr_live_\" or \"nr_test_\""
      ∧ NorthRelay_init "" 3 1 10
          = .error ("API key is required. Get your API key at " ++
              "https://app.northrelay.ca/settings/api-keys")
      ∧ initOk (NorthRelay_init "nr_live_x" 3 1 10) = true
      ∧ initOk (NorthRelay_init "nr_test_x" 3 1 10) = true := by
  refine ⟨?_, rfl, rfl, by decide, by decide⟩
  intro k n d d'
  by_cases hk : k = ""
  · subst hk
    have hp : (pystartswith "" "nr_live_" || pystartswith "" "nr_test_") = false := by
      decide
    simp [NorthRelay_init, initOk, hp]
  · simp only [NorthRelay_init, if_neg hk]
    cases hp : (pystartswith k "nr_live_" || pystartswith k "nr_test_") <;>
      simp [initOk, hp]

/-- **C8** (confirmed): a connection-level `httpx.RequestError` makes
`HttpClient.request` raise a `NetworkError` wrapping the cause and leaves
the rate-limit snapshot exactly as it was; since the only other network
outcome is a received response, the snapshot is only ever mutated when a
response object was received. -/
theorem network_error_preserves_snapshot :
    ∀ (st : Option RateLimitInfo) (cause : String),
      http_request st (.requestError cause)
        = (.raisedNR (.network ("Network error: " ++ cause)), st) :=
  fun _ _ => rfl

/-- **C9** counterexample: a 400 response whose body carries a truthy
non-list `errors` value.  `errors or []` keeps the value as is, so the
`ValidationError` stores the string `"oops"`, not a list. -/
theorem validation_errors_nonlist_counterexample :
    handle_error_response r400errStr
        = .raised (.validation (Json.str "bad") (Json.str "oops"))
      ∧ (Json.str "oops").isArr = false :=
  ⟨rfl, rfl⟩

/-- **C9** (amended): every `ValidationError` produced from a 400 response
whose body parsed stores `errors or []`, which is never `None`; it is the
empty list whenever the body's `errors` value is absent or falsy, and a
list whenever that value is a list — but a truthy non-list value is stored
unchanged.  (A 400 whose body does not parse produces no `ValidationError`
at all, see the C6 theorem.) -/
theorem validation_errors_field_never_none :
    ∀ (r : Response) (j : Json), r.status_code = 400 → r.jsonBody = some j →
      handle_error_response r
          = .raised (.validation (extract_error_message r)
              (py_or_empty_list (raw_errors j)))
        ∧ py_or_empty_list (raw_errors j) ≠ Json.null
        ∧ ((raw_errors j).truthy = false →
            py_or_empty_list (raw_errors j) = Json.arr [])
        ∧ (∀ xs : List Json, raw_errors j = Json.arr xs →
            (py_or_empty_list (raw_errors j)).isArr = true) := by
  intro r j h400 hj
  refine ⟨?_, ?_, ?_, ?_⟩
  · have h1 : r.status_code ≠ 401 := by omega
    have h2 : r.status_code ≠ 403 := by omega
    simp only [handle_error_response, if_neg h1, if_neg h2, if_pos h400, hj]
  · cases hv : (raw_errors j).truthy
    · simp [py_or_empty_list, hv]
    · simp only [py_or_empty_list, hv, if_true]
      intro heq
      rw [heq] at hv
      cases hv
  · intro ht
    simp [py_or_empty_list, ht]
  · intro xs hxs
    cases hv : (Json.arr xs).truthy <;>
      simp [py_or_empty_list, hxs, hv, Json.isArr]

/-- Witness: the amended 400 characterization at a concrete response whose
body lacks an `errors` field. -/
theorem validation_errors_field_never_none_witness :
    handle_error_response r400noerr
        = .raised (.validation (extract_error_message r400noerr)
            (py_or_empty_list (raw_errors (Json.obj [("message", Json.str "bad")]))))
      ∧ py_or_empty_list (raw_errors (Json.obj [("message", Json.str "bad")]))
          ≠ Json.null :=
  ⟨(validation_errors_field_never_none r400noerr
      (Json.obj [("message", Json.str "bad")]) rfl rfl).1,
   (validation_errors_field_never_none r400noerr
      (Json.obj [("message", Json.str "bad")]) rfl rfl).2.1⟩

/-- **C10** (confirmed): for a successful DELETE response with an empty body
the parsed result is the empty dict, whatever `response.json()` would have
done; for a non-empty body the result is exactly what `response.json()`
produces. -/
theorem delete_empty_body_returns_empty_dict :
    (∀ (sc : Nat) (hs : List (String × String)) (jb : Option Json),
        delete_body ⟨sc, hs, "", jb⟩ = some (Json.obj []))
      ∧ (∀ r : Response, r.text ≠ "" → delete_body r = r.jsonBody) := by
  constructor
  · intro sc hs jb; rfl
  · intro r hr
    have hb : (r.text != "") = true := by
      simp [bne, hr]
    simp [delete_body, hb]

/-- Witness: the non-empty-body case of the DELETE parse at a concrete
response. -/
theorem delete_empty_body_returns_empty_dict_witness :
    delete_body rDel = rDel.jsonBody :=
  delete_empty_body_returns_empty_dict.2 rDel (by decide)
